import Mathlib

/-!
Verification development for the shopify-countdown-timer repository.

The definitions below are shallow embeddings of the JavaScript source:

* `calculateTimerStatus` — `calculateTimerStatus` from the shared timer
  utilities (src/unnamed/part_002), which is the same decision structure as
  `timerSchema.virtual('status')` in app/models/Timer.js plus the null-timer
  `'unknown'` case.  JavaScript date parsing of a missing or unparseable
  date yields `NaN`, and every `<`/`>` comparison against `NaN` is false;
  dates are therefore embedded as `Option Int` (`none` = missing/unparseable)
  and the comparisons return `false` on `none`.
* `determineStatus` — the status function asserted by the repository's own
  unit tests (src/__tests__/timer.test.js, "Timer Status Determination"),
  which adds the `'invalid'` results for malformed fixed windows.
* `matchesTargeting` — `matchesTargeting` from the shared utilities, the
  same logic as the targeting filter in app/routes/storefront.js
  (substring-containment id comparison via `String.prototype.includes`).
* `appliesToProduct` — `timerSchema.methods.appliesToProduct` from
  app/models/Timer.js (exact id membership).
* `setupEvergreenEndTime` — the evergreen branch of `setupTimerEndpoint`
  in extensions/theme-app-extension/assets/timer-widget.js, with the
  browser localStorage handle modelled as a key/value list that either
  succeeds or throws on every operation.
* `parseTimeRemaining`, `calculateTimeRemaining`, `padTime`,
  `formatCountdown` — the render-loop helpers of the shared utilities.
* `countExpirySignals` — the tick loop of the widget
  (`startCountdown`/`updateCountdown`/`handleExpired`): an interval tick
  only runs while the interval is armed, and the first expired tick clears
  the interval and emits one expiry signal.
* `selectTimer`, `buildResponse`, `handleTimerRequest` — the public
  GET /timer read path of app/routes/storefront.js: Mongo query filter,
  sort by `createdAt` descending, targeting filter, first element,
  minimal response object.
* `incrementImpression` — `findOneAndUpdate` with `$inc: {impressions: 1}`
  of POST /timer/:id/impression in app/routes/storefront.js.
-/

/-- Timer kind: the `type` field of the Mongoose schema (`'fixed'` or
`'evergreen'`). -/
inductive TimerType where
  | fixed
  | evergreen
deriving DecidableEq, Repr

/-- Targeting scope enum of the schema (`'all' | 'products' | 'collections'`). -/
inductive TargetScope where
  | all
  | products
  | collections
deriving DecidableEq, Repr

/-- The `targeting` subdocument of the schema. -/
structure Targeting where
  scope : TargetScope
  productIds : List String
  collectionIds : List String
deriving DecidableEq, Repr

/-- The `appearance` subdocument; `none` models an absent field so that the
`||`-defaults of the response builder are observable. -/
structure Appearance where
  backgroundColor : Option String
  textColor : Option String
  position : Option String
  headline : Option String
  supportingText : Option String
deriving DecidableEq, Repr

/-- A timer record.  `startDate`/`endDate` are `Option Int` millisecond
instants where `none` models a missing or unparseable date (JavaScript
`NaN`); `targeting := none` models a record without a targeting
subdocument (treated as scope `'all'`). -/
structure Timer where
  id : String
  shop : String
  name : String
  type : TimerType
  startDate : Option Int
  endDate : Option Int
  durationMinutes : Int
  targeting : Option Targeting
  appearance : Appearance
  impressions : Int
  isActive : Bool
  createdAt : Int
deriving DecidableEq, Repr

/-- Comparison `now < start` on a possibly-NaN parsed date: a JavaScript comparison
against `NaN` is always false, so `none` yields `false`. -/
def ltDate (now : Int) (d : Option Int) : Bool :=
  match d with
  | some v => now < v
  | none => false

/-- Comparison `end < now` on a possibly-NaN parsed date (false on `none` = NaN). -/
def gtDate (now : Int) (d : Option Int) : Bool :=
  match d with
  | some v => v < now
  | none => false

/-- Function `calculateTimerStatus` from the shared timer utilities
(src/unnamed/part_002): `'unknown'` for a null timer, `'inactive'` when the
toggle is off, `'active'` for evergreen, then the date comparisons
`now < start → 'scheduled'`, `now > end → 'expired'`, else `'active'`.
The wall clock `new Date()` is the explicit parameter `now`. -/
def calculateTimerStatus (timer : Option Timer) (now : Int) : String :=
  match timer with
  | none => "unknown"
  | some t =>
    if !t.isActive then "inactive"
    else if t.type == TimerType.evergreen then "active"
    else if ltDate now t.startDate then "scheduled"
    else if gtDate now t.endDate then "expired"
    else "active"

/-- Function `determineStatus` from the repository's unit tests
(src/__tests__/timer.test.js, "Timer Status Determination"): like
`calculateTimerStatus` but returning `'invalid'` for a fixed timer whose
start or end is missing/unparseable or whose end is not after its start,
and `'invalid'` for an evergreen timer without a positive duration. -/
def determineStatus (timer : Option Timer) (now : Int) : String :=
  match timer with
  | none => "unknown"
  | some t =>
    if !t.isActive then "inactive"
    else
      match t.type with
      | TimerType.evergreen =>
        if t.durationMinutes > 0 then "active" else "invalid"
      | TimerType.fixed =>
        match t.startDate, t.endDate with
        | some s, some e =>
          if e ≤ s then "invalid"
          else if now < s then "scheduled"
          else if e < now then "expired"
          else "active"
        | _, _ => "invalid"

/-- Default appearance used in several concrete instances below. -/
def defaultAppearance : Appearance :=
  { backgroundColor := none, textColor := none, position := none,
    headline := none, supportingText := none }

/-- A fixed, active timer whose start and end dates are both
missing/unparseable (JavaScript `NaN`). -/
def malformedFixedTimer : Timer :=
  { id := "t-malformed", shop := "s1.myshopify.com", name := "m",
    type := TimerType.fixed, startDate := none, endDate := none,
    durationMinutes := 0, targeting := none,
    appearance := defaultAppearance, impressions := 0,
    isActive := true, createdAt := 0 }

/-- A fixed, active timer with parseable dates but `end <= start`
(start = 10000, end = 5000). -/
def invertedFixedTimer : Timer :=
  { malformedFixedTimer with
    id := "t-inverted", startDate := some 10000, endDate := some 5000 }

/-- C1: the claim says a fixed active timer with missing/unparseable
start or end, or with `end <= start`, gets status `Invalid`.  The shipped
status computation (`calculateTimerStatus` of the shared utilities, and
equally the `status` virtual of Timer.js) has no invalid branch: NaN
comparisons are false, so a timer with both dates missing reports
`'active'`, and an inverted window (start 10000, end 5000) reports
`'scheduled'` at now = 7000 — while the status function asserted by the
repository's own test suite (`determineStatus`) reports `'invalid'` on
both inputs, as the claim states. -/
theorem timer_status_malformed_window_not_invalid :
    calculateTimerStatus (some malformedFixedTimer) 7000 = "active" ∧
    calculateTimerStatus (some malformedFixedTimer) 7000 ≠ "invalid" ∧
    calculateTimerStatus (some invertedFixedTimer) 7000 = "scheduled" ∧
    calculateTimerStatus (some invertedFixedTimer) 7000 ≠ "invalid" ∧
    determineStatus (some malformedFixedTimer) 7000 = "invalid" ∧
    determineStatus (some invertedFixedTimer) 7000 = "invalid" := by
  refine ⟨rfl, ?_, rfl, ?_, rfl, rfl⟩ <;> decide

/-- C4: the status computation returns `'inactive'` whenever the toggle is
off, regardless of kind or window; otherwise `'active'` for evergreen;
otherwise, for a fixed timer with a well-formed window (`start < end`,
both parseable), `'scheduled'` before the start, `'expired'` after the
end, `'active'` in between; and an absent (null) timer yields
`'unknown'`, which is distinct from `'invalid'`. -/
theorem calculate_timer_status_spec (t : Timer) (now : Int) :
    calculateTimerStatus none now = "unknown" ∧
    calculateTimerStatus none now ≠ "invalid" ∧
    (t.isActive = false → calculateTimerStatus (some t) now = "inactive") ∧
    (t.isActive = true → t.type = TimerType.evergreen →
      calculateTimerStatus (some t) now = "active") ∧
    (∀ s e : Int, t.isActive = true → t.type = TimerType.fixed →
      t.startDate = some s → t.endDate = some e → s < e →
      calculateTimerStatus (some t) now =
        (if now < s then "scheduled"
         else if e < now then "expired"
         else "active")) := by
  refine ⟨rfl, by simp [calculateTimerStatus], ?_, ?_, ?_⟩
  · intro h
    simp [calculateTimerStatus, h]
  · intro h hk
    simp [calculateTimerStatus, h, hk]
  · intro s e h hk hs he _
    simp [calculateTimerStatus, h, hk, ltDate, gtDate, hs, he]

/-- A concrete inactive timer for the C4 witness. -/
def inactiveTimer : Timer :=
  { malformedFixedTimer with id := "t-inactive", isActive := false }

/-- C4 witness: the theorem applied to a concrete inactive timer. -/
theorem calculate_timer_status_spec_witness :
    calculateTimerStatus (some inactiveTimer) 0 = "inactive" :=
  (calculate_timer_status_spec inactiveTimer 0).2.2.1 rfl

/-- Prefix test on character lists: helper for the embedding of
JavaScript `String.prototype.includes`. -/
def charsStartWith : List Char → List Char → Bool
  | _, [] => true
  | [], _ :: _ => false
  | c :: cs, d :: ds => c == d && charsStartWith cs ds

/-- Substring occurrence on character lists. -/
def charsContain (hay needle : List Char) : Bool :=
  match hay with
  | [] => charsStartWith [] needle
  | _ :: rest => charsStartWith hay needle || charsContain rest needle

/-- JavaScript `hay.includes(needle)`: substring containment. -/
def jsIncludes (hay needle : String) : Bool :=
  charsContain hay.data needle.data

/-- Function `matchesTargeting` from the shared timer utilities, which is the same
predicate as the targeting filter of GET /timer in
app/routes/storefront.js: scope `'all'` (or a missing targeting
subdocument) always matches; scope `'products'` matches when a productId
is supplied and some targeted id equals it or contains it or is contained
in it (`id === productId || id.includes(productId) ||
productId.includes(id)`); scope `'collections'` likewise over the
supplied collection-id list. -/
def matchesTargeting (timer : Timer) (productId : Option String)
    (collectionIds : List String) : Bool :=
  match timer.targeting with
  | none => true
  | some tg =>
    match tg.scope with
    | TargetScope.all => true
    | TargetScope.products =>
      match productId with
      | some pid =>
        tg.productIds.any fun i =>
          i == pid || jsIncludes i pid || jsIncludes pid i
      | none => false
    | TargetScope.collections =>
      if collectionIds.length > 0 then
        tg.collectionIds.any fun i =>
          collectionIds.any fun cid =>
            cid == i || jsIncludes cid i || jsIncludes i cid
      else false

/-- Method `timerSchema.methods.appliesToProduct` from app/models/Timer.js — the
model's own version of the targeting predicate, which uses exact id
membership (`Array.prototype.includes`), identical to the targeting
filter inside `findActiveForProduct` and to the matcher asserted by the
repository's unit tests. -/
def appliesToProduct (timer : Timer) (productId : Option String)
    (collectionIds : List String) : Bool :=
  match timer.targeting with
  | none => true
  | some tg =>
    match tg.scope with
    | TargetScope.all => true
    | TargetScope.products =>
      match productId with
      | some pid => tg.productIds.contains pid
      | none => false
    | TargetScope.collections =>
      tg.collectionIds.any fun i => collectionIds.contains i

/-- A products-scoped timer targeting the single product id "12". -/
def productTwelveTimer : Timer :=
  { malformedFixedTimer with
    id := "t-products",
    targeting := some
      { scope := TargetScope.products, productIds := ["12"],
        collectionIds := [] } }

/-- A collections-scoped timer targeting the single collection id "77". -/
def collectionTimer : Timer :=
  { malformedFixedTimer with
    id := "t-collections",
    targeting := some
      { scope := TargetScope.collections, productIds := [],
        collectionIds := ["77"] } }

/-- C2: the claim says id comparison in the targeting matcher is exact and
substring containment is not a match.  The shipped matcher
(`matchesTargeting` of the shared utilities and the GET /timer filter of
storefront.js) accepts substring containment: a timer targeting product
id "12" matches the distinct product id "120", and a timer targeting
collection id "77" matches collection id "177" — while the exact-match
predicate that the Timer model itself ships (`appliesToProduct`, also
used by `findActiveForProduct` and asserted by the unit tests) rejects
both, as the claim requires. -/
theorem targeting_substring_containment_matches :
    matchesTargeting productTwelveTimer (some "120") [] = true ∧
    appliesToProduct productTwelveTimer (some "120") [] = false ∧
    matchesTargeting collectionTimer none ["177"] = true ∧
    appliesToProduct collectionTimer none ["177"] = false := by
  refine ⟨?_, ?_, ?_, ?_⟩ <;> decide

/-- Function `getStorageKey` of timer-widget.js: fixed namespace concatenated with
the timer id. -/
def getStorageKey (timerId : String) : String :=
  "countdown_timer_" ++ timerId

/-- The per-visitor localStorage handle of the widget, modelled as a
key/value list; `failing = true` models a handle that throws on every
operation (private browsing, quota). -/
structure VisitorStore where
  entries : List (String × Int)
  failing : Bool
deriving DecidableEq, Repr

/-- Operation `localStorage.getItem`: first entry for the key, or a thrown error. -/
def VisitorStore.get (st : VisitorStore) (key : String) :
    Except Unit (Option Int) :=
  if st.failing then Except.error ()
  else Except.ok ((st.entries.find? fun p => p.1 == key).map fun p => p.2)

/-- Operation `localStorage.setItem`: newest binding shadows older ones, or a thrown
error. -/
def VisitorStore.set (st : VisitorStore) (key : String) (v : Int) :
    Except Unit VisitorStore :=
  if st.failing then Except.error ()
  else Except.ok { st with entries := (key, v) :: st.entries }

/-- Operation `localStorage.removeItem`, or a thrown error. -/
def VisitorStore.remove (st : VisitorStore) (key : String) :
    Except Unit VisitorStore :=
  if st.failing then Except.error ()
  else Except.ok { st with entries := st.entries.filter fun p => !(p.1 == key) }

/-- The evergreen branch of `setupTimerEndpoint` in timer-widget.js.  The
try-block reads the stored start; if present and
`now - start >= durationMinutes * 60000` it removes and rewrites the key
with `start = now` (rearm), otherwise keeps the stored start; if absent it
writes `start = now`.  If any storage operation throws, the catch-block
falls back to an in-memory `start = now`.  Returns
`endTime = start + durationMinutes * 60 * 1000` together with the
resulting store. -/
def setupEvergreenEndTime (timerId : String) (durationMinutes : Int)
    (store : VisitorStore) (now : Int) : Int × VisitorStore :=
  let key := getStorageKey timerId
  let attempt : Except Unit (Int × VisitorStore) :=
    match store.get key with
    | Except.error e => Except.error e
    | Except.ok (some startTime) =>
      if now - startTime ≥ durationMinutes * 60 * 1000 then
        match store.remove key with
        | Except.error e => Except.error e
        | Except.ok s1 =>
          match s1.set key now with
          | Except.error e => Except.error e
          | Except.ok s2 => Except.ok (now, s2)
      else
        Except.ok (startTime, store)
    | Except.ok none =>
      match store.set key now with
      | Except.error e => Except.error e
      | Except.ok s1 => Except.ok (now, s1)
  match attempt with
  | Except.ok (startTime, st) =>
    (startTime + durationMinutes * 60 * 1000, st)
  | Except.error _ =>
    (now + durationMinutes * 60 * 1000, store)

/-- C3: on a working (non-throwing) store, resolving the evergreen end
instant (1) on a store with no entry for the timer writes `start = now`
and returns `now + durationMinutes * 60000`; (2) when a stored start is
within its window (`now - start < durationMinutes * 60000`) it returns
`start + durationMinutes * 60000` and leaves the store unchanged;
(3) when the stored start has fully elapsed it rearms: it returns
`now + durationMinutes * 60000` and the stored value becomes `now`. -/
theorem evergreen_resolve_end_instant_spec (timerId : String)
    (d start now : Int) (store : VisitorStore)
    (hd : 0 < d) (hok : store.failing = false) :
    (store.get (getStorageKey timerId) = Except.ok none →
      (setupEvergreenEndTime timerId d store now).1 = now + d * 60000 ∧
      ((setupEvergreenEndTime timerId d store now).2).get
        (getStorageKey timerId) = Except.ok (some now)) ∧
    (store.get (getStorageKey timerId) = Except.ok (some start) →
      now - start < d * 60000 →
      setupEvergreenEndTime timerId d store now =
        (start + d * 60000, store)) ∧
    (store.get (getStorageKey timerId) = Except.ok (some start) →
      d * 60000 ≤ now - start →
      (setupEvergreenEndTime timerId d store now).1 = now + d * 60000 ∧
      ((setupEvergreenEndTime timerId d store now).2).get
        (getStorageKey timerId) = Except.ok (some now)) := by
  have h60 : d * 60 * 1000 = d * 60000 := by ring
  refine ⟨?_, ?_, ?_⟩
  · intro hget
    have hstep : setupEvergreenEndTime timerId d store now =
        (now + d * 60000,
         { entries := (getStorageKey timerId, now) :: store.entries,
           failing := false }) := by
      simp [setupEvergreenEndTime, hget, h60, VisitorStore.set, hok]
    rw [hstep]
    refine ⟨rfl, ?_⟩
    simp [VisitorStore.get]
  · intro hget hfresh
    have hnot : ¬ (d * 60000 ≤ now - start) := by omega
    simp [setupEvergreenEndTime, hget, hnot, h60]
  · intro hget hexp
    have hstep : setupEvergreenEndTime timerId d store now =
        (now + d * 60000,
         { entries := (getStorageKey timerId, now) ::
             (store.entries.filter fun p => !(p.1 == getStorageKey timerId)),
           failing := false }) := by
      simp [setupEvergreenEndTime, hget, hexp, h60,
        VisitorStore.remove, VisitorStore.set, hok]
    rw [hstep]
    refine ⟨rfl, ?_⟩
    simp [VisitorStore.get]

/-- C3 witness: the spec theorem applied to the scenario of the spec —
a 60-minute timer on an empty store at now = 1000 creates an entry and
returns 1000 + 3600000. -/
theorem evergreen_resolve_end_instant_spec_witness :
    (setupEvergreenEndTime "t1" 60 ⟨[], false⟩ 1000).1 = 1000 + 60 * 60000 ∧
    ((setupEvergreenEndTime "t1" 60 ⟨[], false⟩ 1000).2).get
      (getStorageKey "t1") = Except.ok (some 1000) :=
  ((evergreen_resolve_end_instant_spec "t1" 60 0 1000 ⟨[], false⟩
      (by decide) rfl).1) rfl

/-- C9: when the storage handle throws on every read and write, the
evergreen end-instant resolution still succeeds with the in-memory
fallback `start = now`: it returns `now + durationMinutes * 60000` (the
countdown functions for the current page life) and the failure is not
propagated — the function is total and the store is returned as it was. -/
theorem evergreen_resolve_storage_failure_fallback (timerId : String)
    (d now : Int) (store : VisitorStore) (hfail : store.failing = true) :
    setupEvergreenEndTime timerId d store now =
      (now + d * 60000, store) := by
  have h60 : d * 60 * 1000 = d * 60000 := by ring
  simp [setupEvergreenEndTime, VisitorStore.get, hfail, h60]

/-- C9 witness: the fallback theorem applied to a concrete throwing store. -/
theorem evergreen_resolve_storage_failure_fallback_witness :
    setupEvergreenEndTime "t1" 60 ⟨[("countdown_timer_t1", 5)], true⟩ 9999 =
      (9999 + 60 * 60000, ⟨[("countdown_timer_t1", 5)], true⟩) :=
  evergreen_resolve_storage_failure_fallback "t1" 60 9999
    ⟨[("countdown_timer_t1", 5)], true⟩ rfl

/-- Remaining-time components produced by `parseTimeRemaining`. -/
structure TimeParts where
  days : Nat
  hours : Nat
  minutes : Nat
  seconds : Nat
  expired : Bool
deriving DecidableEq, Repr

/-- Function `calculateTimeRemaining` of the shared timer utilities:
`Math.max(0, end - now)` in milliseconds. -/
def calculateTimeRemaining (endDate now : Int) : Int :=
  max 0 (endDate - now)

/-- Function `parseTimeRemaining` of the shared timer utilities
(src/unnamed/part_002): `ms <= 0` is expired; otherwise
`totalSeconds = Math.floor(ms / 1000)` is decomposed by integer division
into days / hours / minutes / seconds. -/
def parseTimeRemaining (ms : Int) : TimeParts :=
  if ms ≤ 0 then
    { days := 0, hours := 0, minutes := 0, seconds := 0, expired := true }
  else
    let totalSeconds := ms.toNat / 1000
    { days := totalSeconds / 86400,
      hours := (totalSeconds % 86400) / 3600,
      minutes := (totalSeconds % 3600) / 60,
      seconds := totalSeconds % 60,
      expired := false }

/-- Functions `pad`/`padTime`: `String(num).padStart(2, '0')`. -/
def padTime (n : Nat) : String :=
  if (toString n).length < 2 then "0" ++ toString n else toString n

/-- Function `formatCountdown` of the shared timer utilities: `"Dd HH:MM:SS"` when
days are present, otherwise `"HH:MM:SS"`. -/
def formatCountdown (tp : TimeParts) : String :=
  if tp.days > 0 then
    toString tp.days ++ "d " ++ padTime tp.hours ++ ":" ++
      padTime tp.minutes ++ ":" ++ padTime tp.seconds
  else
    padTime tp.hours ++ ":" ++ padTime tp.minutes ++ ":" ++ padTime tp.seconds

/-- The widget tick loop (`startCountdown` / `updateCountdown` /
`handleExpired` of timer-widget.js) over a sequence of observed clock
values: a tick only runs while the interval is armed (`active`); each
armed tick computes `remaining = endTime - now`; a non-expired remaining
updates the display, while an expired one clears the interval (so no
further tick runs) and emits one expiry signal.  Returns the number of
expiry signals emitted. -/
def countExpirySignals (endTime : Int) (nows : List Int) (active : Bool) :
    Nat :=
  match nows with
  | [] => 0
  | now :: rest =>
    if active then
      if (parseTimeRemaining (endTime - now)).expired then
        1 + countExpirySignals endTime rest false
      else
        countExpirySignals endTime rest true
    else
      countExpirySignals endTime rest false

/-- A disarmed loop never signals. -/
theorem countExpirySignals_inactive (endTime : Int) (nows : List Int) :
    countExpirySignals endTime nows false = 0 := by
  induction nows with
  | nil => rfl
  | cons n rest ih => simp [countExpirySignals, ih]

/-- C6: the render loop computes `remaining = max 0 (endInstant - now)`;
for positive remaining `ms` the decomposition satisfies
`days*86400 + hours*3600 + minutes*60 + seconds = floor(ms / 1000)` with
`hours < 24`, `minutes < 60`, `seconds < 60`; `ms = 3661000` decomposes to
1 hour, 1 minute, 1 second and formats as "01:01:01"; and the tick loop
stops at `remaining ≤ 0`, signalling expiry at most once — exactly once
when some observed tick is at or past the end instant. -/
theorem render_loop_decomposition_spec (endInstant now ms : Int)
    (hms : 0 < ms) :
    calculateTimeRemaining endInstant now = max 0 (endInstant - now) ∧
    ((parseTimeRemaining ms).days * 86400 +
      (parseTimeRemaining ms).hours * 3600 +
      (parseTimeRemaining ms).minutes * 60 +
      (parseTimeRemaining ms).seconds = ms.toNat / 1000 ∧
     (parseTimeRemaining ms).hours < 24 ∧
     (parseTimeRemaining ms).minutes < 60 ∧
     (parseTimeRemaining ms).seconds < 60 ∧
     (parseTimeRemaining ms).expired = false) ∧
    parseTimeRemaining 3661000 =
      { days := 0, hours := 1, minutes := 1, seconds := 1,
        expired := false } ∧
    formatCountdown (parseTimeRemaining 3661000) = "01:01:01" ∧
    (∀ endTime : Int, ∀ nows : List Int,
      countExpirySignals endTime nows true ≤ 1) ∧
    (∀ endTime : Int, ∀ nows : List Int,
      countExpirySignals endTime nows true = 1 ↔
        ∃ n ∈ nows, endTime ≤ n) := by
  have hnot : ¬ ms ≤ 0 := by omega
  have hdecomp :
      (parseTimeRemaining ms).days * 86400 +
        (parseTimeRemaining ms).hours * 3600 +
        (parseTimeRemaining ms).minutes * 60 +
        (parseTimeRemaining ms).seconds = ms.toNat / 1000 := by
    simp only [parseTimeRemaining, hnot, if_false]
    omega
  have hcount : ∀ (endTime : Int) (nows : List Int),
      countExpirySignals endTime nows true ≤ 1 ∧
      (countExpirySignals endTime nows true = 1 ↔ ∃ n ∈ nows, endTime ≤ n) := by
    intro endTime nows
    induction nows with
    | nil => simp [countExpirySignals]
    | cons n rest ih =>
      by_cases hx : (parseTimeRemaining (endTime - n)).expired = true
      · have hle : endTime ≤ n := by
          by_contra hgt
          have : ¬ (endTime - n ≤ 0) := by omega
          simp [parseTimeRemaining, this] at hx
        constructor
        · simp [countExpirySignals, hx, countExpirySignals_inactive]
        · simp [countExpirySignals, hx, countExpirySignals_inactive]
          exact Or.inl hle
      · have hgt : ¬ endTime ≤ n := by
          by_contra hle
          have hle0 : endTime - n ≤ 0 := by omega
          simp [parseTimeRemaining, hle0] at hx
        constructor
        · simp [countExpirySignals, hx]
          exact ih.1
        · simp [countExpirySignals, hx, hgt]
          exact ih.2
  refine ⟨rfl, ⟨hdecomp, ?_, ?_, ?_, ?_⟩, by decide, by decide,
    fun e l => (hcount e l).1, fun e l => (hcount e l).2⟩ <;>
    simp only [parseTimeRemaining, hnot, if_false] <;> omega

/-- C6 witness: the theorem applied at remaining = 3661000 ms. -/
theorem render_loop_decomposition_spec_witness :
    (parseTimeRemaining 3661000).days * 86400 +
      (parseTimeRemaining 3661000).hours * 3600 +
      (parseTimeRemaining 3661000).minutes * 60 +
      (parseTimeRemaining 3661000).seconds = (3661000 : Int).toNat / 1000 :=
  ((render_loop_decomposition_spec 0 0 3661000 (by decide)).2.1).1

/-- Position of a status in the fixed-timer lifecycle order
`scheduled → active → expired`. -/
def statusRank (s : String) : Nat :=
  if s = "scheduled" then 0
  else if s = "active" then 1
  else if s = "expired" then 2
  else 3

/-- C7: for a fixed, active timer with a well-formed window
(`start < end`), the computed status never moves backwards in the order
`scheduled → active → expired` as the clock advances, and at every
instant it is exactly one of `scheduled`, `active`, `expired`, `invalid`
(on this code path in fact always one of the first three). -/
theorem fixed_status_monotone (t : Timer) (now1 now2 s e : Int)
    (hAct : t.isActive = true) (hKind : t.type = TimerType.fixed)
    (hs : t.startDate = some s) (he : t.endDate = some e) (hw : s < e)
    (hlt : now1 < now2) :
    statusRank (calculateTimerStatus (some t) now1) ≤
      statusRank (calculateTimerStatus (some t) now2) ∧
    (∀ now : Int,
      calculateTimerStatus (some t) now = "scheduled" ∨
      calculateTimerStatus (some t) now = "active" ∨
      calculateTimerStatus (some t) now = "expired" ∨
      calculateTimerStatus (some t) now = "invalid") := by
  constructor
  · simp only [calculateTimerStatus, hAct, hKind, ltDate, gtDate, hs, he,
      Bool.not_true, Bool.false_eq_true, if_false]
    split_ifs <;> simp_all [statusRank] <;> omega
  · intro now
    simp only [calculateTimerStatus, hAct, hKind, ltDate, gtDate, hs, he,
      Bool.not_true, Bool.false_eq_true, if_false]
    split_ifs <;> simp

/-- A fixed active timer with window [1000, 2000] for the C7 witness. -/
def windowTimer : Timer :=
  { malformedFixedTimer with
    id := "t-window", startDate := some 1000, endDate := some 2000 }

/-- C7 witness: the theorem applied to the concrete window [1000, 2000]
between instants 500 and 1500. -/
theorem fixed_status_monotone_witness :
    statusRank (calculateTimerStatus (some windowTimer) 500) ≤
      statusRank (calculateTimerStatus (some windowTimer) 1500) :=
  (fixed_status_monotone windowTimer 500 1500 1000 2000 rfl rfl rfl rfl
    (by decide) (by decide)).1

/-- The match predicate of POST /timer/:id/impression in storefront.js:
`{ _id: id, ...(shop ? { shop } : {}) }` — the id must match, and the
shop only when one was supplied in the request body. -/
def impressionMatch (id : String) (shop : Option String) (t : Timer) :
    Bool :=
  t.id == id &&
    (match shop with
     | none => true
     | some s => t.shop == s)

/-- Call `Timer.findOneAndUpdate` with `$inc: impressions 1` of
POST /timer/:id/impression: increment the impressions field of the first
matching record, leave everything else untouched; report whether a record
matched (`false` maps to the 404 Timer-not-found response). -/
def incrementImpression (timers : List Timer) (id : String)
    (shop : Option String) : List Timer × Bool :=
  match timers with
  | [] => ([], false)
  | t :: rest =>
    if impressionMatch id shop t then
      ({ t with impressions := t.impressions + 1 } :: rest, true)
    else
      let r := incrementImpression rest id shop
      (t :: r.1, r.2)

/-- C10: recording an impression for a timer id (with optional shop
scoping) increments exactly the impressions field of the single matching
timer by 1 — its other fields and all other timers are returned
unchanged — and when no stored timer matches, the store is returned
unmodified with a not-found result. -/
theorem increment_impression_frame (l1 l2 : List Timer) (t : Timer)
    (id : String) (shop : Option String)
    (h1 : ∀ u ∈ l1, impressionMatch id shop u = false)
    (h2 : impressionMatch id shop t = true) :
    incrementImpression (l1 ++ t :: l2) id shop =
      (l1 ++ { t with impressions := t.impressions + 1 } :: l2, true) ∧
    (∀ l : List Timer, (∀ u ∈ l, impressionMatch id shop u = false) →
      incrementImpression l id shop = (l, false)) := by
  constructor
  · induction l1 with
    | nil => simp [incrementImpression, h2]
    | cons u us ih =>
      have hu : impressionMatch id shop u = false := h1 u (by simp)
      have ihr := ih fun v hv => h1 v (by simp [hv])
      simp [incrementImpression, hu, ihr]
  · intro l hl
    induction l with
    | nil => rfl
    | cons u us ih =>
      have hu : impressionMatch id shop u = false := hl u (by simp)
      have ihr := ih fun v hv => hl v (by simp [hv])
      simp [incrementImpression, hu, ihr]

/-- C10 witness: the theorem applied to a concrete two-timer store where
the second timer matches. -/
theorem increment_impression_frame_witness :
    incrementImpression [productTwelveTimer, collectionTimer]
        "t-collections" (some "s1.myshopify.com") =
      ([productTwelveTimer,
        { collectionTimer with
          impressions := collectionTimer.impressions + 1 }], true) :=
  (increment_impression_frame [productTwelveTimer] [] collectionTimer
    "t-collections" (some "s1.myshopify.com")
    (by intro u hu; simp at hu; subst hu; decide) (by decide)).1

/-- Time-eligibility clause of the Mongo query of GET /timer:
`{ $or: [ { type: 'evergreen' },
          { type: 'fixed', startDate: { $lte: now },
            endDate: { $gte: now } } ] }`.
A comparison operator does not match a document whose field is missing,
so a fixed timer without dates is ineligible. -/
def timeEligible (t : Timer) (now : Int) : Bool :=
  t.type == TimerType.evergreen ||
    (t.type == TimerType.fixed &&
      ((match t.startDate with
        | some s => decide (s ≤ now)
        | none => false) &&
       (match t.endDate with
        | some e => decide (now ≤ e)
        | none => false)))

/-- The full Mongo query filter of GET /timer: shop-owned, active, and
time-eligible. -/
def storefrontQuery (shop : String) (now : Int) (t : Timer) : Bool :=
  (t.shop == shop) && (t.isActive && timeEligible t now)

/-- One insertion step of sorting by `createdAt` descending (the
`.sort({ createdAt: -1 })` of the query). -/
def insertByCreatedAtDesc (t : Timer) : List Timer → List Timer
  | [] => [t]
  | u :: us =>
    if u.createdAt ≤ t.createdAt then t :: u :: us
    else u :: insertByCreatedAtDesc t us

/-- Sort by `createdAt` descending (newest first). -/
def sortByCreatedAtDesc : List Timer → List Timer
  | [] => []
  | t :: ts => insertByCreatedAtDesc t (sortByCreatedAtDesc ts)

/-- The timer-selection pipeline of GET /timer in storefront.js: query
filter (shop, active, time window), sort newest first, filter by
targeting, take the first element (`matchingTimers[0]`); an empty result
models the 404 "No active timer found" response. -/
def selectTimer (shop : String) (now : Int) (productId : Option String)
    (collectionIds : List String) (candidates : List Timer) : Option Timer :=
  ((sortByCreatedAtDesc (candidates.filter (storefrontQuery shop now))).filter
    fun t => matchesTargeting t productId collectionIds).head?

theorem mem_insertByCreatedAtDesc {u t : Timer} {l : List Timer} :
    u ∈ insertByCreatedAtDesc t l ↔ u = t ∨ u ∈ l := by
  induction l with
  | nil => simp [insertByCreatedAtDesc]
  | cons v vs ih =>
    simp only [insertByCreatedAtDesc]
    split_ifs
    · simp
    · simp only [List.mem_cons, ih]
      tauto

theorem mem_sortByCreatedAtDesc {u : Timer} {l : List Timer} :
    u ∈ sortByCreatedAtDesc l ↔ u ∈ l := by
  induction l with
  | nil => simp [sortByCreatedAtDesc]
  | cons v vs ih =>
    simp [sortByCreatedAtDesc, mem_insertByCreatedAtDesc, ih]

theorem pairwise_insertByCreatedAtDesc {t : Timer} {l : List Timer}
    (h : l.Pairwise fun a b => b.createdAt ≤ a.createdAt) :
    (insertByCreatedAtDesc t l).Pairwise
      fun a b => b.createdAt ≤ a.createdAt := by
  induction l with
  | nil => simp [insertByCreatedAtDesc]
  | cons v vs ih =>
    rcases List.pairwise_cons.mp h with ⟨hv, hvs⟩
    simp only [insertByCreatedAtDesc]
    split_ifs with hle
    · refine List.pairwise_cons.mpr ⟨?_, h⟩
      intro x hx
      rcases List.mem_cons.mp hx with rfl | hx
      · exact hle
      · exact le_trans (hv x hx) hle
    · refine List.pairwise_cons.mpr ⟨?_, ih hvs⟩
      intro x hx
      rcases mem_insertByCreatedAtDesc.mp hx with rfl | hx
      · omega
      · exact hv x hx

theorem pairwise_sortByCreatedAtDesc (l : List Timer) :
    (sortByCreatedAtDesc l).Pairwise
      fun a b => b.createdAt ≤ a.createdAt := by
  induction l with
  | nil => simp [sortByCreatedAtDesc]
  | cons v vs ih => exact pairwise_insertByCreatedAtDesc ih

/-- C5: the storefront selection returns `none` exactly when no candidate
is shop-owned, active, time-eligible and targeting-matched (the normal
no-timer outcome); and a returned timer is such a candidate whose
`createdAt` is the most recent among all candidates passing those
filters.  The result type `Option Timer` is at most one record. -/
theorem select_timer_newest_matching (shop : String) (now : Int)
    (productId : Option String) (collectionIds : List String)
    (candidates : List Timer) :
    (selectTimer shop now productId collectionIds candidates = none ↔
      ∀ t ∈ candidates,
        ¬(storefrontQuery shop now t = true ∧
          matchesTargeting t productId collectionIds = true)) ∧
    (∀ t : Timer,
      selectTimer shop now productId collectionIds candidates = some t →
      t ∈ candidates ∧ storefrontQuery shop now t = true ∧
      matchesTargeting t productId collectionIds = true ∧
      ∀ u ∈ candidates, storefrontQuery shop now u = true →
        matchesTargeting u productId collectionIds = true →
        u.createdAt ≤ t.createdAt) := by
  constructor
  · unfold selectTimer
    rw [List.head?_eq_none_iff, List.filter_eq_nil_iff]
    constructor
    · intro h t ht hboth
      exact h t (mem_sortByCreatedAtDesc.mpr
        (List.mem_filter.mpr ⟨ht, hboth.1⟩)) hboth.2
    · intro h a ha hma
      rcases List.mem_filter.mp (mem_sortByCreatedAtDesc.mp ha) with ⟨hc, hqa⟩
      exact h a hc ⟨hqa, hma⟩
  · intro t hsel
    unfold selectTimer at hsel
    rcases List.head?_eq_some_iff.mp hsel with ⟨rest, hL⟩
    have hmemL : t ∈ (sortByCreatedAtDesc
        (candidates.filter (storefrontQuery shop now))).filter
        fun u => matchesTargeting u productId collectionIds := by
      rw [hL]
      exact List.mem_cons_self t rest
    rcases List.mem_filter.mp hmemL with ⟨hsort, hmt⟩
    rcases List.mem_filter.mp (mem_sortByCreatedAtDesc.mp hsort)
      with ⟨hc, hqt⟩
    refine ⟨hc, hqt, hmt, ?_⟩
    intro u hu hqu hmu
    have huL : u ∈ (sortByCreatedAtDesc
        (candidates.filter (storefrontQuery shop now))).filter
        fun v => matchesTargeting v productId collectionIds :=
      List.mem_filter.mpr
        ⟨mem_sortByCreatedAtDesc.mpr (List.mem_filter.mpr ⟨hu, hqu⟩), hmu⟩
    have hpair : ((sortByCreatedAtDesc
        (candidates.filter (storefrontQuery shop now))).filter
        fun v => matchesTargeting v productId collectionIds).Pairwise
        (fun a b => b.createdAt ≤ a.createdAt) :=
      List.Pairwise.sublist (List.filter_sublist _)
        (pairwise_sortByCreatedAtDesc _)
    rw [hL] at huL hpair
    rcases List.mem_cons.mp huL with rfl | hurest
    · exact le_refl _
    · exact List.rel_of_pairwise_cons hpair hurest

/-- A shop-owned, active, evergreen candidate for the C5 witness. -/
def evergreenTimer : Timer :=
  { malformedFixedTimer with
    id := "t-evergreen", type := TimerType.evergreen,
    durationMinutes := 60, createdAt := 42 }

/-- C5 witness: selecting over the single eligible evergreen candidate
returns it, via the spec theorem. -/
theorem select_timer_newest_matching_witness :
    evergreenTimer ∈ [evergreenTimer] ∧
    storefrontQuery "s1.myshopify.com" 0 evergreenTimer = true ∧
    matchesTargeting evergreenTimer none [] = true ∧
    ∀ u ∈ [evergreenTimer], storefrontQuery "s1.myshopify.com" 0 u = true →
      matchesTargeting u none [] = true →
      u.createdAt ≤ evergreenTimer.createdAt :=
  (select_timer_newest_matching "s1.myshopify.com" 0 none []
    [evergreenTimer]).2 evergreenTimer rfl

/-- The minimal payload built by GET /timer for the selected timer: id,
type, the five appearance fields (with their `||` defaults), and the
kind-specific window fields. -/
structure TimerResponse where
  id : String
  type : TimerType
  backgroundColor : String
  textColor : String
  position : String
  headline : String
  supportingText : String
  startDate : Option Int
  endDate : Option Int
  durationMinutes : Option Int
deriving DecidableEq, Repr

/-- The response-building block of GET /timer (storefront.js lines
104–122): the minimal object plus `startDate`/`endDate` for a fixed timer
or `durationMinutes` for an evergreen one.  No targeting, impression,
shop or name data is copied. -/
def buildResponse (t : Timer) : TimerResponse :=
  { id := t.id,
    type := t.type,
    backgroundColor := t.appearance.backgroundColor.getD "#000000",
    textColor := t.appearance.textColor.getD "#FFFFFF",
    position := t.appearance.position.getD "above-cart",
    headline := t.appearance.headline.getD "",
    supportingText := t.appearance.supportingText.getD "",
    startDate := if t.type == TimerType.fixed then t.startDate else none,
    endDate := if t.type == TimerType.fixed then t.endDate else none,
    durationMinutes :=
      if t.type == TimerType.evergreen then some t.durationMinutes
      else none }

/-- The whole GET /timer read path: select, then build the minimal
payload; `none` models the 404 "No active timer found" response. -/
def handleTimerRequest (shop : String) (now : Int)
    (productId : Option String) (collectionIds : List String)
    (candidates : List Timer) : Option TimerResponse :=
  (selectTimer shop now productId collectionIds candidates).map buildResponse

/-- C8: (1) the payload built for a selected timer is a function of its
id, kind, appearance and kind-specific window fields only — two timers
agreeing on those fields yield identical payloads no matter how their
targeting lists, impressions, shop, name, activity flag or creation time
differ — so the response never carries targeting, impression or other
record data; and (2) the read path is two-run noninterfering across
shops: two candidate stores with the same shop-owned records (in order)
produce identical responses for that shop, so adding or removing another
shop's records never changes the result. -/
theorem storefront_response_minimization_noninterference :
    (∀ t1 t2 : Timer, t1.id = t2.id → t1.type = t2.type →
      t1.appearance = t2.appearance → t1.startDate = t2.startDate →
      t1.endDate = t2.endDate → t1.durationMinutes = t2.durationMinutes →
      buildResponse t1 = buildResponse t2) ∧
    (∀ (shop : String) (now : Int) (productId : Option String)
       (collectionIds : List String) (l1 l2 : List Timer),
      l1.filter (fun t => t.shop == shop) =
        l2.filter (fun t => t.shop == shop) →
      handleTimerRequest shop now productId collectionIds l1 =
        handleTimerRequest shop now productId collectionIds l2) := by
  constructor
  · intro t1 t2 h1 h2 h3 h4 h5 h6
    simp [buildResponse, h1, h2, h3, h4, h5, h6]
  · intro shop now productId collectionIds l1 l2 hfilter
    have hsplit : ∀ l : List Timer,
        l.filter (storefrontQuery shop now) =
          (l.filter fun t => t.shop == shop).filter
            fun t => t.isActive && timeEligible t now := by
      intro l
      rw [List.filter_filter]
      apply List.filter_congr
      intro a _
      simp [storefrontQuery, Bool.and_comm]
    unfold handleTimerRequest selectTimer
    rw [hsplit l1, hsplit l2, hfilter]

/-- C8 witness: the noninterference half applied concretely — adding
another shop's record to the store leaves the response for shop
"s1.myshopify.com" unchanged. -/
theorem storefront_response_minimization_noninterference_witness :
    handleTimerRequest "s1.myshopify.com" 0 none [] [evergreenTimer] =
      handleTimerRequest "s1.myshopify.com" 0 none []
        [{ evergreenTimer with id := "t-other", shop := "other.myshopify.com" },
         evergreenTimer] :=
  storefront_response_minimization_noninterference.2
    "s1.myshopify.com" 0 none [] [evergreenTimer]
    [{ evergreenTimer with id := "t-other", shop := "other.myshopify.com" },
     evergreenTimer] (by decide)
